import Mathlib

/-!
Verification of the worker-pool runtime of the `work` background-job engine.

The Go sources embedded here are `worker.go` (worker loop, job processing,
retry/dead routing, the three completion operations, the default backoff)
and the `work` package configuration code (job registration defaults and
validation, handler/middleware signature checks, context-type check).

Redis state relevant to one job name is embedded as `NameState`; the union of
all pools in-progress lists is kept as a single list of (poolID, payload)
pairs, a pool list being the sublist of pairs tagged with that pool id.
Definitions whose doc comment starts with `Modelled from the spec:` stand for
repository code that is not among the provided sources (the Lua fetch script,
the enqueue client, the method `failed` on Job).
-/

namespace Work

abbrev Payload := String
abbrev PoolID := String

/-- The persisted job record (struct `Job`), restricted to its data fields;
`rawJSON` stands for the serialized envelope the record was fetched as and
`inProgQueue` for the in-progress list key it was moved to. -/
structure Job where
  Name : String
  ID : String
  Args : List (String × String)
  Fails : Int
  LastErr : String
  FailedAt : Int
  Unique : Bool
  EnqueuedAt : Int
  ScheduledAt : Int
  Success : Bool
  rawJSON : Payload
  inProgQueue : String
deriving DecidableEq

/-- Go errors as seen by the worker: a value of the concrete type
`*NoRetryError`, or any other error carrying a message. -/
inductive GoError
  | noRetry (msg : String)
  | generic (msg : String)
deriving DecidableEq

def GoError.message : GoError → String
  | .noRetry m => m
  | .generic m => m

/-- The type assertion `runErr.(*NoRetryError)` in `addToRetryOrDead`. -/
def isNoRetryError : GoError → Bool
  | .noRetry _ => true
  | .generic _ => false

/-- `JobOptions` from the configuration code. `Priority`, `MaxFails` and
`MaxConcurrency` are Go `uint`, `StartingDeadline` is `int64`, `Timeout`
is `int` milliseconds. The backoff calculator takes the job and the draw of
`rand.Int63n 30` made inside it. -/
structure JobOptions where
  Priority : Nat
  MaxFails : Nat
  SkipDead : Bool
  MaxConcurrency : Nat
  Backoff : Option (Job → Int → Int)
  StartingDeadline : Int
  RetryOnStart : Bool
  Timeout : Int

/-- `jobType`: a registered job name with its options (Go embeds `JobOptions`
into `jobType`, promoting its fields). Handler and middleware values are
omitted; they are never inspected by the embedded control flow. -/
structure JobType extends JobOptions where
  Name : String
  IsGeneric : Bool

/-! ## Redis state for one job name -/

/-- `LREM key 1 value`: remove the first occurrence of `value`, scanning
head to tail. -/
def lremOne {α : Type} [DecidableEq α] (x : α) : List α → List α
  | [] => []
  | y :: ys => if y = x then ys else y :: lremOne x ys

/-- Number of records a given pool holds in the combined in-progress list. -/
def countPool (q : PoolID) : List (PoolID × Payload) → Nat
  | [] => 0
  | e :: es => (if e.1 = q then 1 else 0) + countPool q es

/-- The keys scoped to one job name: the pending list `jobs:<name>`, the
union of the pools in-progress lists `jobs:<name>:<poolId>:inprogress`
(tagged with the pool id), the counter `jobs:<name>:lock`, the hash
`jobs:<name>:lock_info`, and the `retry` and `dead` sorted sets (kept as
lists of (score, payload) entries). -/
structure NameState where
  pending : List Payload
  inProg : List (PoolID × Payload)
  lock : Int
  lockInfo : PoolID → Int
  retry : List (Int × Payload)
  dead : List (Int × Payload)

def initState : NameState :=
  { pending := [], inProg := [], lock := 0, lockInfo := fun _ => 0,
    retry := [], dead := [] }

/-- Modelled from the spec: the enqueue client (spec section 6) appends the
envelope to `jobs:<name>`; with the right-to-left pop of the fetch script
(spec section 4.2) the enqueue side is the left end, so enqueue conses onto
the head. The client code is not among the provided sources. -/
def enqueueJob (payload : Payload) (s : NameState) : NameState :=
  { s with pending := payload :: s.pending }

/-- Modelled from the spec: the atomic fetch script (spec section 4.2) pops
the payload from the right end of `jobs:<name>`, pushes it onto the fetching
pool in-progress list, increments `jobs:<name>:lock` and the pool field of
`jobs:<name>:lock_info`, all inside one server-side script. The Lua body
`redisLuaFetchJob` is not among the provided sources. -/
def fetchJob (p : PoolID) (payload : Payload) (s : NameState) : NameState :=
  { s with
    pending := s.pending.dropLast
    inProg := (p, payload) :: s.inProg
    lock := s.lock + 1
    lockInfo := fun q => if q = p then s.lockInfo q + 1 else s.lockInfo q }

/-- `worker.removeJobFromInProgress`: one MULTI/EXEC transaction sending
`LREM inProgQueue 1 rawJSON`, `DECR jobs:<name>:lock` and
`HINCRBY jobs:<name>:lock_info poolID -1`. -/
def removeJobFromInProgress (p : PoolID) (rawJSON : Payload) (s : NameState) :
    NameState :=
  { s with
    inProg := lremOne (p, rawJSON) s.inProg
    lock := s.lock - 1
    lockInfo := fun q => if q = p then s.lockInfo q - 1 else s.lockInfo q }

/-- `worker.addToRetry`: one MULTI/EXEC transaction sending the same
`LREM`, `DECR` and `HINCRBY` as `removeJobFromInProgress`, plus
`ZADD retry (nowEpochSeconds() + backoff(job)) serialized`; the removed
payload is `job.rawJSON` while the added one is the fresh serialization. -/
def addToRetry (p : PoolID) (rawJSON serialized : Payload)
    (now backoffVal : Int) (s : NameState) : NameState :=
  { s with
    inProg := lremOne (p, rawJSON) s.inProg
    lock := s.lock - 1
    lockInfo := fun q => if q = p then s.lockInfo q - 1 else s.lockInfo q
    retry := (now + backoffVal, serialized) :: s.retry }

/-- `worker.addToDead`: one MULTI/EXEC transaction sending the same
`LREM`, `DECR` and `HINCRBY` as `removeJobFromInProgress`, plus
`ZADD dead (nowEpochSeconds()) serialized`. -/
def addToDead (p : PoolID) (rawJSON serialized : Payload) (now : Int)
    (s : NameState) : NameState :=
  { s with
    inProg := lremOne (p, rawJSON) s.inProg
    lock := s.lock - 1
    lockInfo := fun q => if q = p then s.lockInfo q - 1 else s.lockInfo q
    dead := (now, serialized) :: s.dead }

/-- One successful operation on the keys of one job name. A fetch succeeds
when the pending list is nonempty; a completion operation is successful when
the record it removes is present in the in-progress list (the job was
fetched by that pool and not yet completed). -/
inductive Step : NameState → NameState → Prop
  | enqueue (s : NameState) (payload : Payload) :
      Step s (enqueueJob payload s)
  | fetch (s : NameState) (p : PoolID) (payload : Payload)
      (hpop : s.pending.getLast? = some payload) :
      Step s (fetchJob p payload s)
  | complete (s : NameState) (p : PoolID) (raw : Payload)
      (hmem : (p, raw) ∈ s.inProg) :
      Step s (removeJobFromInProgress p raw s)
  | retry (s : NameState) (p : PoolID) (raw ser : Payload) (now b : Int)
      (hmem : (p, raw) ∈ s.inProg) :
      Step s (addToRetry p raw ser now b s)
  | dead (s : NameState) (p : PoolID) (raw ser : Payload) (now : Int)
      (hmem : (p, raw) ∈ s.inProg) :
      Step s (addToDead p raw ser now s)

/-- States reachable from the empty initial state by successful
enqueue, fetch and complete operations. -/
inductive Reach : NameState → Prop
  | init : Reach initState
  | step {s s' : NameState} : Reach s → Step s s' → Reach s'

/-! ## Job processing (worker.processJob and helpers) -/

/-- Modelled from the spec: the method `failed` on `Job` bumps `fails` and
records `lastErr` and `failedAt` (spec section 4.4 step 8); its definition is
not among the provided sources. -/
def Job.failed (j : Job) (err : GoError) (now : Int) : Job :=
  { j with Fails := j.Fails + 1, LastErr := err.message, FailedAt := now }

/-- `defaultBackoffCalculator`: `fails*fails*fails*fails + 15 +
rand.Int63n(30) * (fails + 1)` where `fails` is `job.Fails`; the random draw
is passed in as `r`. -/
def defaultBackoffCalculator (job : Job) (r : Int) : Int :=
  job.Fails * job.Fails * job.Fails * job.Fails + 15 + r * (job.Fails + 1)

/-- The effective timeout computed at the top of `processJob`, in
milliseconds: `time.Duration(jt.Timeout) * time.Millisecond`, replaced by
`time.Minute * 1440 * 14` when not positive. -/
def effectiveTimeout (timeoutMs : Int) : Int :=
  if timeoutMs ≤ 0 then 1440 * 14 * 60 * 1000 else timeoutMs

/-- Where `addToRetryOrDead` sends the failed job. -/
inductive CompletionRoute
  | retry
  | dead
  | removeOnly
deriving DecidableEq

/-- `worker.addToRetryOrDead`: retry when fails remain and the error is not
a `*NoRetryError`; otherwise dead unless `SkipDead`; otherwise only the
in-progress removal with lock decrements. -/
def addToRetryOrDead (jt : JobType) (job : Job) (runErr : GoError) :
    CompletionRoute :=
  let isNoRetry := isNoRetryError runErr
  let failsRemaining : Int := (jt.MaxFails : Int) - job.Fails
  if 0 < failsRemaining ∧ isNoRetry = false then CompletionRoute.retry
  else if jt.SkipDead = false then CompletionRoute.dead
  else CompletionRoute.removeOnly

/-- Observable actions of one `processJob` call, in program order. -/
inductive Effect
  | observeStart
  | startHandler
  | runHook
  | ackClear
  | observeDone
  | removeFromInProgress
  | retryAdd
  | deadAdd
  | deleteUnique
deriving DecidableEq

/-- The Redis write a completion route performs. -/
def CompletionRoute.effect : CompletionRoute → Effect
  | .retry => Effect.retryAdd
  | .dead => Effect.deadAdd
  | .removeOnly => Effect.removeFromInProgress

/-- Which arm of the select in `processJob` fires: the handler goroutine
delivers its error, the timeout fires first, or the clear signal arrives
during execution. -/
inductive ExecEvent
  | handlerDone (runErr : Option GoError)
  | timeoutFired
  | clearSignal
deriving DecidableEq

/-- Result of one `processJob` call: its effects in order, the final value
of `runErr`, and the job record as mutated. -/
structure ProcessOutcome where
  effects : List Effect
  runErr : Option GoError
  job : Job
deriving DecidableEq

/-- The deferred block at the top of `processJob`: on every exit path, when
the job carries the uniqueness flag, `deleteUniqueJob` runs last. -/
def withDeferredUnique (job : Job) (effs : List Effect) : List Effect :=
  if job.Unique then effs ++ [Effect.deleteUnique] else effs

/-- The select statement of `processJob`: yields the final `runErr`, the job
(with `Success` set on normal completion), and the effects of the chosen
arm. On timeout, `runErr` is set only under the guard `timeout > 0`; on a
clear signal the acknowledgement is sent and `runErr` stays nil. -/
def selectOutcome (timeout : Int) (job : Job) (ev : ExecEvent) :
    Option GoError × Job × List Effect :=
  match ev with
  | .timeoutFired =>
    if 0 < timeout then (some (GoError.generic "Run Job Timeout"), job, [])
    else (none, job, [])
  | .handlerDone e => (e, { job with Success := e.isNone }, [Effect.runHook])
  | .clearSignal => (none, job, [Effect.ackClear])

/-- The tail of `processJob` after the select: observe-done, then either
`job.failed` plus `addToRetryOrDead`, or `removeJobFromInProgress`. -/
def finishJob (jt : JobType) (now : Int)
    (sel : Option GoError × Job × List Effect) : ProcessOutcome :=
  let pre := [Effect.observeStart, Effect.startHandler] ++ sel.2.2 ++
    [Effect.observeDone]
  match sel.1 with
  | some e =>
    let job := (sel.2.1).failed e now
    { effects := pre ++ [(addToRetryOrDead jt job e).effect]
      runErr := some e
      job := job }
  | none =>
    { effects := pre ++ [Effect.removeFromInProgress]
      runErr := none
      job := sel.2.1 }

/-- `worker.processJob`: resolve the job type; drop silently when the
starting deadline has passed; otherwise run the select with the effective
timeout and finish; unknown names go straight to dead as stray jobs. The
deferred unique-key deletion wraps every path. -/
def processJob (jobTypes : String → Option JobType) (now : Int) (job : Job)
    (ev : ExecEvent) : ProcessOutcome :=
  match jobTypes job.Name with
  | some jt =>
    if jt.StartingDeadline > 0 ∧ job.ScheduledAt > 0 ∧
        job.ScheduledAt < jt.StartingDeadline then
      { effects := withDeferredUnique job [Effect.removeFromInProgress]
        runErr := none
        job := job }
    else
      let out := finishJob jt now (selectOutcome (effectiveTimeout jt.Timeout) job ev)
      { out with effects := withDeferredUnique out.job out.effects }
  | none =>
    let e := GoError.generic "stray job: no handler"
    let failedJob := job.failed e now
    { effects := withDeferredUnique failedJob [Effect.deadAdd]
      runErr := some e
      job := failedJob }

/-! ## Worker loop timer (worker.loop) -/

def sleepBackoffsInMilliseconds : List Int := [0, 10, 100, 1000, 5000]

/-- What one fetch attempt of the loop produced. -/
inductive FetchOutcome
  | transportError
  | gotJob
  | noJob
deriving DecidableEq

/-- The timer arm of `worker.loop`: given the consecutive-no-jobs counter,
return its new value and the duration (in milliseconds) the timer is reset
to. -/
def loopStep (consequtiveNoJobs : Nat) : FetchOutcome → Nat × Int
  | .transportError => (consequtiveNoJobs, 10)
  | .gotJob => (0, 0)
  | .noJob =>
    let c := consequtiveNoJobs + 1
    let idx := if sleepBackoffsInMilliseconds.length ≤ c then
      sleepBackoffsInMilliseconds.length - 1 else c
    (c, sleepBackoffsInMilliseconds.getD idx 0)

/-! ## Registration-time configuration checks -/

/-- The relevant cases of `reflect.Kind`. -/
inductive Kind
  | Struct
  | Ptr
  | Func
  | Interface
  | MapKind
  | IntKind
  | StringKind
deriving DecidableEq

/-- The Go types the signature checks compare against: the `error`
interface, `*Job`, a pointer to a named context struct, the
`NextMiddlewareFunc` type, or any other named type. -/
inductive GoType
  | errorInterface
  | ptrJob
  | ptrTo (name : String)
  | nextMiddlewareFunc
  | named (name : String)
deriving DecidableEq

/-- A reflected function type: whether the kind is `Func`, and its input
and output type lists. -/
structure FnType where
  isFunc : Bool
  ins : List GoType
  outs : List GoType
deriving DecidableEq

/-- `isValidHandlerType`: a func returning exactly one `error`, taking
either `(*Job)` or `(*ctx, *Job)`. -/
def isValidHandlerType (ctxName : String) (fn : FnType) : Bool :=
  if fn.isFunc = false then false
  else if fn.outs.length ≠ 1 then false
  else if fn.outs.getD 0 (GoType.named "") ≠ GoType.errorInterface then false
  else if fn.ins.length = 1 then
    decide (fn.ins.getD 0 (GoType.named "") = GoType.ptrJob)
  else if fn.ins.length = 2 then
    decide (fn.ins.getD 0 (GoType.named "") = GoType.ptrTo ctxName) &&
      decide (fn.ins.getD 1 (GoType.named "") = GoType.ptrJob)
  else false

/-- `isValidMiddlewareType`: a func returning exactly one `error`, taking
either `(*Job, NextMiddlewareFunc)` or `(*ctx, *Job, NextMiddlewareFunc)`. -/
def isValidMiddlewareType (ctxName : String) (fn : FnType) : Bool :=
  if fn.isFunc = false then false
  else if fn.outs.length ≠ 1 then false
  else if fn.outs.getD 0 (GoType.named "") ≠ GoType.errorInterface then false
  else if fn.ins.length = 2 then
    decide (fn.ins.getD 0 (GoType.named "") = GoType.ptrJob) &&
      decide (fn.ins.getD 1 (GoType.named "") = GoType.nextMiddlewareFunc)
  else if fn.ins.length = 3 then
    decide (fn.ins.getD 0 (GoType.named "") = GoType.ptrTo ctxName) &&
      decide (fn.ins.getD 1 (GoType.named "") = GoType.ptrJob) &&
      decide (fn.ins.getD 2 (GoType.named "") = GoType.nextMiddlewareFunc)
  else false

/-- `validateHandlerType` panics on an invalid handler signature; the panic
is embedded as an error result, its instructive-message text abstracted to a
marker. -/
def validateHandlerType (ctxName : String) (fn : FnType) :
    Except String Unit :=
  if isValidHandlerType ctxName fn = false then
    Except.error "work: invalid handler signature"
  else Except.ok ()

/-- `validateMiddlewareType` panics on an invalid middleware signature; the
panic is embedded as an error result, its instructive-message text
abstracted to a marker. -/
def validateMiddlewareType (ctxName : String) (fn : FnType) :
    Except String Unit :=
  if isValidMiddlewareType ctxName fn = false then
    Except.error "work: invalid middleware signature"
  else Except.ok ()

/-- `validateContextType` panics unless the context type is a struct kind;
the panic is embedded as an error result with the source message. -/
def validateContextType (k : Kind) : Except String Unit :=
  if k ≠ Kind.Struct then
    Except.error "work: Context needs to be a struct type"
  else Except.ok ()

/-- `applyDefaultsAndValidate`: priority 0 defaults to 1, maxFails 0
defaults to 4, then priority above 100000 panics (embedded as an error
result with the source message). -/
def applyDefaultsAndValidate (jobOpts : JobOptions) :
    Except String JobOptions :=
  let jobOpts := if jobOpts.Priority = 0 then
    { jobOpts with Priority := 1 } else jobOpts
  let jobOpts := if jobOpts.MaxFails = 0 then
    { jobOpts with MaxFails := 4 } else jobOpts
  if 100000 < jobOpts.Priority then
    Except.error "work: JobOptions.Priority must be between 1 and 100000"
  else Except.ok jobOpts

/-! ## Concrete fixtures used by witnesses and counterexamples -/

def c1s1 : NameState := enqueueJob "j1" initState
def c1s2 : NameState := fetchJob "p1" "j1" c1s1
def c1s3 : NameState := addToRetry "p1" "j1" "j1b" 100 16 c1s2

def baseOptions : JobOptions :=
  { Priority := 1, MaxFails := 4, SkipDead := false, MaxConcurrency := 0,
    Backoff := none, StartingDeadline := 0, RetryOnStart := false,
    Timeout := 0 }

def jt0 : JobType :=
  { toJobOptions := baseOptions, Name := "email", IsGeneric := true }

def jtDeadline : JobType :=
  { toJobOptions := { baseOptions with StartingDeadline := 50 },
    Name := "email", IsGeneric := true }

def jobTypes0 : String → Option JobType :=
  fun n => if n = "email" then some jt0 else none

def jobTypesDeadline : String → Option JobType :=
  fun n => if n = "email" then some jtDeadline else none

def jobTypesEmpty : String → Option JobType := fun _ => none

def job0 : Job :=
  { Name := "email", ID := "1", Args := [], Fails := 0, LastErr := "",
    FailedAt := 0, Unique := false, EnqueuedAt := 0, ScheduledAt := 0,
    Success := false, rawJSON := "raw", inProgQueue := "q" }

def jobFails2 : Job := { job0 with Fails := 2 }

def jobSched : Job := { job0 with ScheduledAt := 10 }

def jobUnique : Job := { job0 with Unique := true }

def zeroOptions : JobOptions := { baseOptions with Priority := 0, MaxFails := 0 }

def hugePriorityOptions : JobOptions := { baseOptions with Priority := 100001 }

def badFn : FnType := { isFunc := true, ins := [], outs := [] }

/-! ## Helper lemmas -/

theorem lremOne_length {α : Type} [DecidableEq α] (x : α) (l : List α)
    (h : x ∈ l) : (lremOne x l).length + 1 = l.length := by
  induction l with
  | nil => cases h
  | cons y ys ih =>
    by_cases hy : y = x
    · simp [lremOne, hy]
    · have hmem : x ∈ ys := by
        cases h with
        | head => exact absurd rfl hy
        | tail _ h' => exact h'
      simp only [lremOne, if_neg hy, List.length_cons]
      rw [← ih hmem]

theorem countPool_cons (q p : PoolID) (payload : Payload)
    (l : List (PoolID × Payload)) :
    countPool q ((p, payload) :: l) =
      (if p = q then 1 else 0) + countPool q l := rfl

theorem countPool_lremOne (p : PoolID) (raw : Payload)
    (l : List (PoolID × Payload)) (h : (p, raw) ∈ l) (q : PoolID) :
    countPool q (lremOne (p, raw) l) + (if p = q then 1 else 0) =
      countPool q l := by
  induction l with
  | nil => cases h
  | cons y ys ih =>
    by_cases hy : y = (p, raw)
    · subst hy
      have hrem : lremOne (p, raw) ((p, raw) :: ys) = ys := by
        simp [lremOne]
      rw [hrem, countPool_cons]
      omega
    · have hmem : (p, raw) ∈ ys := by
        cases h with
        | head => exact absurd rfl hy
        | tail _ h' => exact h'
      simp only [lremOne, if_neg hy, countPool]
      have := ih hmem
      omega

theorem step_preserves_lock_invariant {s s' : NameState} (hs : Step s s')
    (h1 : s.lock = (s.inProg.length : Int))
    (h2 : ∀ q, s.lockInfo q = (countPool q s.inProg : Int)) :
    s'.lock = (s'.inProg.length : Int) ∧
      ∀ q, s'.lockInfo q = (countPool q s'.inProg : Int) := by
  cases hs with
  | enqueue payload =>
    exact ⟨h1, h2⟩
  | fetch p payload hpop =>
    refine ⟨?_, ?_⟩
    · simp only [fetchJob, List.length_cons]
      push_cast
      omega
    · intro q
      simp only [fetchJob, countPool_cons]
      by_cases hq : q = p
      · subst hq
        rw [if_pos rfl, if_pos rfl, h2 q]
        push_cast
        omega
      · rw [if_neg hq, if_neg (fun hpq => hq hpq.symm), h2 q]
        push_cast
        omega
  | complete p raw hmem =>
    have hlen := lremOne_length (p, raw) _ hmem
    refine ⟨?_, ?_⟩
    · simp only [removeJobFromInProgress]
      rw [h1]
      omega
    · intro q
      have hcnt := countPool_lremOne p raw _ hmem q
      simp only [removeJobFromInProgress]
      by_cases hq : q = p
      · subst hq
        rw [if_pos rfl, h2 q]
        rw [if_pos rfl] at hcnt
        omega
      · rw [if_neg hq, h2 q]
        rw [if_neg (fun hpq => hq hpq.symm)] at hcnt
        omega
  | retry p raw ser now b hmem =>
    have hlen := lremOne_length (p, raw) _ hmem
    refine ⟨?_, ?_⟩
    · simp only [addToRetry]
      rw [h1]
      omega
    · intro q
      have hcnt := countPool_lremOne p raw _ hmem q
      simp only [addToRetry]
      by_cases hq : q = p
      · subst hq
        rw [if_pos rfl, h2 q]
        rw [if_pos rfl] at hcnt
        omega
      · rw [if_neg hq, h2 q]
        rw [if_neg (fun hpq => hq hpq.symm)] at hcnt
        omega
  | dead p raw ser now hmem =>
    have hlen := lremOne_length (p, raw) _ hmem
    refine ⟨?_, ?_⟩
    · simp only [addToDead]
      rw [h1]
      omega
    · intro q
      have hcnt := countPool_lremOne p raw _ hmem q
      simp only [addToDead]
      by_cases hq : q = p
      · subst hq
        rw [if_pos rfl, h2 q]
        rw [if_pos rfl] at hcnt
        omega
      · rw [if_neg hq, h2 q]
        rw [if_neg (fun hpq => hq hpq.symm)] at hcnt
        omega

theorem effectiveTimeout_pos (t : Int) : 0 < effectiveTimeout t := by
  unfold effectiveTimeout
  split <;> omega

theorem mem_withDeferredUnique {a : Effect} (j : Job) {effs : List Effect}
    (h : a ∈ effs) : a ∈ withDeferredUnique j effs := by
  unfold withDeferredUnique
  split
  · exact List.mem_append_left _ h
  · exact h

theorem not_mem_withDeferredUnique {a : Effect} (j : Job)
    {effs : List Effect} (h : a ∉ effs) (hne : a ≠ Effect.deleteUnique) :
    a ∉ withDeferredUnique j effs := by
  unfold withDeferredUnique
  split
  · intro hmem
    rcases List.mem_append.mp hmem with h1 | h1
    · exact h h1
    · rw [List.mem_singleton] at h1
      exact hne h1
  · exact h

theorem getLast_withDeferredUnique (j : Job) (hu : j.Unique = true)
    (effs : List Effect) :
    (withDeferredUnique j effs).getLast? = some Effect.deleteUnique := by
  unfold withDeferredUnique
  rw [if_pos hu]
  exact List.getLast?_concat effs

theorem selectOutcome_job_unique (t : Int) (job : Job) (ev : ExecEvent) :
    (selectOutcome t job ev).2.1.Unique = job.Unique := by
  cases ev with
  | timeoutFired =>
    by_cases h : 0 < t
    · simp [selectOutcome, h]
    · simp [selectOutcome, h]
  | handlerDone e => rfl
  | clearSignal => rfl

theorem finishJob_job_unique (jt : JobType) (now : Int)
    (sel : Option GoError × Job × List Effect) :
    (finishJob jt now sel).job.Unique = sel.2.1.Unique := by
  rcases sel with ⟨_ | e, j, effs⟩ <;> rfl

/-! ## Claim theorems -/

/-- C1: each of the three completion operations removes the job record from
the in-progress list and decrements `jobs:<name>:lock` and the pool field of
`jobs:<name>:lock_info` in the one atomic transaction embedded as its state
update, so after any sequence of successful enqueue, fetch and complete
operations, `jobs:<name>:lock` equals the total number of records across all
pools in-progress lists for that name, and each pool field of
`jobs:<name>:lock_info` equals that pool record count. -/
theorem lock_equals_inprogress_total (s : NameState) (h : Reach s) :
    s.lock = (s.inProg.length : Int) ∧
      ∀ q : PoolID, s.lockInfo q = (countPool q s.inProg : Int) := by
  induction h with
  | init =>
    refine ⟨rfl, ?_⟩
    intro q
    rfl
  | step _ hstep ih =>
    exact step_preserves_lock_invariant hstep ih.1 ih.2

/-- C1 witness: along the concrete trace enqueue, fetch by pool p1, retry
completion, the lock matches the in-progress total. -/
theorem lock_equals_inprogress_total_witness :
    c1s3.lock = (c1s3.inProg.length : Int) ∧
      c1s3.lockInfo "p1" = (countPool "p1" c1s3.inProg : Int) := by
  have hreach : Reach c1s3 :=
    Reach.step
      (Reach.step
        (Reach.step Reach.init (Step.enqueue initState "j1"))
        (Step.fetch c1s1 "p1" "j1" (by decide)))
      (Step.retry c1s2 "p1" "j1" "j1b" 100 16 (by decide))
  exact ⟨(lock_equals_inprogress_total c1s3 hreach).1,
    (lock_equals_inprogress_total c1s3 hreach).2 "p1"⟩

/-- C2: in retry-or-dead routing, given jt, j and error e: a no-retry error
bypasses the retry branch regardless of remaining fails; otherwise positive
jt.maxFails - j.fails routes to retry; when the retry branch is not taken,
the job goes to dead when skipDead is false, else it is only removed from
in-progress. -/
theorem addToRetryOrDead_routing (jt : JobType) (job : Job) (e : GoError) :
    (isNoRetryError e = true →
      addToRetryOrDead jt job e ≠ CompletionRoute.retry) ∧
    (isNoRetryError e = false → 0 < (jt.MaxFails : Int) - job.Fails →
      addToRetryOrDead jt job e = CompletionRoute.retry) ∧
    (¬ (0 < (jt.MaxFails : Int) - job.Fails ∧ isNoRetryError e = false) →
      jt.SkipDead = false →
      addToRetryOrDead jt job e = CompletionRoute.dead) ∧
    (¬ (0 < (jt.MaxFails : Int) - job.Fails ∧ isNoRetryError e = false) →
      jt.SkipDead = true →
      addToRetryOrDead jt job e = CompletionRoute.removeOnly) := by
  unfold addToRetryOrDead
  split_ifs with hc hd <;> refine ⟨?_, ?_, ?_, ?_⟩ <;> intros <;>
    first
    | rfl
    | simp_all
    | tauto

/-- C2 witness: with maxFails 4 and fails 0, a no-retry error is not routed
to retry while a generic error is. -/
theorem addToRetryOrDead_routing_witness :
    addToRetryOrDead jt0 job0 (GoError.noRetry "boom") ≠
      CompletionRoute.retry ∧
    addToRetryOrDead jt0 job0 (GoError.generic "boom") =
      CompletionRoute.retry :=
  ⟨(addToRetryOrDead_routing jt0 job0 (GoError.noRetry "boom")).1 rfl,
    (addToRetryOrDead_routing jt0 job0 (GoError.generic "boom")).2.1 rfl
      (by decide)⟩

/-- C3 counterexample: the claim says the clear signal leaves the
in-progress entry in place, but processJob falls through with a nil runErr
and issues the in-progress removal: at this concrete input the removal
effect is present. -/
theorem processJob_clear_cleanup_cex :
    Effect.removeFromInProgress ∈
      (processJob jobTypes0 0 job0 ExecEvent.clearSignal).effects := by
  decide

/-- C3 amended: if a worker receives the clear signal while a job is
executing, it stops waiting on the result channel, acknowledges the clear
and discards the outcome (runErr stays nil, no hook, no retry or dead
entry), and it does clean up the in-progress entry, removing the record as
if the job had succeeded. -/
theorem processJob_clear_behavior (jobTypes : String → Option JobType)
    (now : Int) (job : Job) (jt : JobType)
    (hjt : jobTypes job.Name = some jt)
    (hnd : ¬ (jt.StartingDeadline > 0 ∧ job.ScheduledAt > 0 ∧
      job.ScheduledAt < jt.StartingDeadline)) :
    (processJob jobTypes now job ExecEvent.clearSignal).runErr = none ∧
    Effect.ackClear ∈
      (processJob jobTypes now job ExecEvent.clearSignal).effects ∧
    Effect.runHook ∉
      (processJob jobTypes now job ExecEvent.clearSignal).effects ∧
    Effect.retryAdd ∉
      (processJob jobTypes now job ExecEvent.clearSignal).effects ∧
    Effect.deadAdd ∉
      (processJob jobTypes now job ExecEvent.clearSignal).effects ∧
    Effect.removeFromInProgress ∈
      (processJob jobTypes now job ExecEvent.clearSignal).effects := by
  have he : processJob jobTypes now job ExecEvent.clearSignal =
      { effects := withDeferredUnique job
          [Effect.observeStart, Effect.startHandler, Effect.ackClear,
            Effect.observeDone, Effect.removeFromInProgress]
        runErr := none
        job := job } := by
    unfold processJob
    rw [hjt]
    dsimp only
    rw [if_neg hnd]
    rfl
  rw [he]
  refine ⟨rfl, ?_, ?_, ?_, ?_, ?_⟩
  · exact mem_withDeferredUnique job (by decide)
  · exact not_mem_withDeferredUnique job (by decide) (by decide)
  · exact not_mem_withDeferredUnique job (by decide) (by decide)
  · exact not_mem_withDeferredUnique job (by decide) (by decide)
  · exact mem_withDeferredUnique job (by decide)

/-- C3 amended witness: the clear-signal behavior at a concrete registered
job. -/
theorem processJob_clear_behavior_witness :
    (processJob jobTypes0 0 job0 ExecEvent.clearSignal).runErr = none ∧
    Effect.ackClear ∈
      (processJob jobTypes0 0 job0 ExecEvent.clearSignal).effects ∧
    Effect.runHook ∉
      (processJob jobTypes0 0 job0 ExecEvent.clearSignal).effects ∧
    Effect.retryAdd ∉
      (processJob jobTypes0 0 job0 ExecEvent.clearSignal).effects ∧
    Effect.deadAdd ∉
      (processJob jobTypes0 0 job0 ExecEvent.clearSignal).effects ∧
    Effect.removeFromInProgress ∈
      (processJob jobTypes0 0 job0 ExecEvent.clearSignal).effects :=
  processJob_clear_behavior jobTypes0 0 job0 jt0 rfl (by decide)

/-- C4: the effective timeout is the Timeout option in milliseconds with a
14-day sentinel substituted when the option is not positive; on a timeout
the run error is exactly "Run Job Timeout", the job is marked failed with
that message, and it is routed through retry-or-dead, landing in retry when
fails remain after the bump. -/
theorem processJob_timeout_behavior (jobTypes : String → Option JobType)
    (now : Int) (job : Job) (jt : JobType)
    (hjt : jobTypes job.Name = some jt)
    (hnd : ¬ (jt.StartingDeadline > 0 ∧ job.ScheduledAt > 0 ∧
      job.ScheduledAt < jt.StartingDeadline)) :
    (jt.Timeout ≤ 0 →
      effectiveTimeout jt.Timeout = 14 * 24 * 60 * 60 * 1000) ∧
    (0 < jt.Timeout → effectiveTimeout jt.Timeout = jt.Timeout) ∧
    (processJob jobTypes now job ExecEvent.timeoutFired).runErr =
      some (GoError.generic "Run Job Timeout") ∧
    (processJob jobTypes now job ExecEvent.timeoutFired).job.LastErr =
      "Run Job Timeout" ∧
    (0 < (jt.MaxFails : Int) - (job.Fails + 1) →
      Effect.retryAdd ∈
        (processJob jobTypes now job ExecEvent.timeoutFired).effects) := by
  have hsel : selectOutcome (effectiveTimeout jt.Timeout) job
      ExecEvent.timeoutFired =
      (some (GoError.generic "Run Job Timeout"), job, []) := by
    unfold selectOutcome
    rw [if_pos (effectiveTimeout_pos jt.Timeout)]
  have he : processJob jobTypes now job ExecEvent.timeoutFired =
      { effects := withDeferredUnique
          (job.failed (GoError.generic "Run Job Timeout") now)
          [Effect.observeStart, Effect.startHandler, Effect.observeDone,
            (addToRetryOrDead jt
              (job.failed (GoError.generic "Run Job Timeout") now)
              (GoError.generic "Run Job Timeout")).effect]
        runErr := some (GoError.generic "Run Job Timeout")
        job := job.failed (GoError.generic "Run Job Timeout") now } := by
    unfold processJob
    rw [hjt]
    dsimp only
    rw [if_neg hnd, hsel]
    rfl
  refine ⟨?_, ?_, ?_, ?_, ?_⟩
  · intro h
    unfold effectiveTimeout
    rw [if_pos h]
    norm_num
  · intro h
    unfold effectiveTimeout
    rw [if_neg (by omega)]
  · rw [he]
  · rw [he]
    rfl
  · intro hfr
    rw [he]
    have hroute : addToRetryOrDead jt
        (job.failed (GoError.generic "Run Job Timeout") now)
        (GoError.generic "Run Job Timeout") = CompletionRoute.retry := by
      unfold addToRetryOrDead
      rw [if_pos]
      exact ⟨by unfold Job.failed; dsimp only; omega, rfl⟩
    rw [hroute]
    exact mem_withDeferredUnique _ (by decide)

/-- C4 witness: at a concrete registered job with maxFails 4 and fails 0,
the timeout event sets the error and routes to retry. -/
theorem processJob_timeout_behavior_witness :
    (processJob jobTypes0 0 job0 ExecEvent.timeoutFired).runErr =
      some (GoError.generic "Run Job Timeout") ∧
    Effect.retryAdd ∈
      (processJob jobTypes0 0 job0 ExecEvent.timeoutFired).effects :=
  ⟨(processJob_timeout_behavior jobTypes0 0 job0 jt0 rfl (by decide)).2.2.1,
    (processJob_timeout_behavior jobTypes0 0 job0 jt0 rfl
      (by decide)).2.2.2.2 (by decide)⟩

/-- C5: for fails at least 0, the default backoff equals
fails^4 + 15 + r(fails + 1) with the random draw r in [0, 30), hence is at
least 15; addToRetry with this backoff inserts the serialized job into the
retry sorted set with score now + backoff, which is at least now + 15. -/
theorem default_backoff_retry_score (job : Job) (r now : Int) (p : PoolID)
    (raw ser : Payload) (s : NameState) (hf : 0 ≤ job.Fails) (hr0 : 0 ≤ r)
    (hr1 : r < 30) :
    defaultBackoffCalculator job r =
      job.Fails ^ 4 + 15 + r * (job.Fails + 1) ∧
    15 ≤ defaultBackoffCalculator job r ∧
    (addToRetry p raw ser now (defaultBackoffCalculator job r) s).retry =
      (now + defaultBackoffCalculator job r, ser) :: s.retry ∧
    now + 15 ≤ now + defaultBackoffCalculator job r := by
  have h1 : defaultBackoffCalculator job r =
      job.Fails ^ 4 + 15 + r * (job.Fails + 1) := by
    unfold defaultBackoffCalculator
    ring
  have h2 : 15 ≤ defaultBackoffCalculator job r := by
    have hp : 0 ≤ job.Fails * job.Fails * job.Fails * job.Fails := by
      nlinarith [mul_self_nonneg (job.Fails * job.Fails)]
    have hq : 0 ≤ r * (job.Fails + 1) :=
      mul_nonneg hr0 (by omega)
    unfold defaultBackoffCalculator
    linarith
  exact ⟨h1, h2, rfl, by linarith⟩

/-- C5 witness: fails 2 and draw 7 give backoff 52 and a retry entry with
score now + 52, at least now + 15. -/
theorem default_backoff_retry_score_witness :
    defaultBackoffCalculator jobFails2 7 =
      jobFails2.Fails ^ 4 + 15 + 7 * (jobFails2.Fails + 1) ∧
    15 ≤ defaultBackoffCalculator jobFails2 7 ∧
    (addToRetry "p1" "raw" "ser" 100 (defaultBackoffCalculator jobFails2 7)
      initState).retry =
      (100 + defaultBackoffCalculator jobFails2 7, "ser") ::
        initState.retry ∧
    100 + 15 ≤ 100 + defaultBackoffCalculator jobFails2 7 :=
  default_backoff_retry_score jobFails2 7 100 "p1" "raw" "ser" initState
    (by decide) (by decide) (by decide)

/-- C6: a fetched job whose name has no registered job type is marked
failed with "stray job: no handler" and pushed directly to the dead sorted
set; no retry and no handler start happen, whatever the event, fail counts
or options. -/
theorem processJob_stray_to_dead (jobTypes : String → Option JobType)
    (now : Int) (job : Job) (ev : ExecEvent)
    (h : jobTypes job.Name = none) :
    (processJob jobTypes now job ev).runErr =
      some (GoError.generic "stray job: no handler") ∧
    (processJob jobTypes now job ev).job.LastErr =
      "stray job: no handler" ∧
    Effect.deadAdd ∈ (processJob jobTypes now job ev).effects ∧
    Effect.retryAdd ∉ (processJob jobTypes now job ev).effects ∧
    Effect.startHandler ∉ (processJob jobTypes now job ev).effects := by
  have he : processJob jobTypes now job ev =
      { effects := withDeferredUnique
          (job.failed (GoError.generic "stray job: no handler") now)
          [Effect.deadAdd]
        runErr := some (GoError.generic "stray job: no handler")
        job := job.failed (GoError.generic "stray job: no handler") now } := by
    unfold processJob
    rw [h]
  rw [he]
  refine ⟨rfl, rfl, ?_, ?_, ?_⟩
  · exact mem_withDeferredUnique _ (by decide)
  · exact not_mem_withDeferredUnique _ (by decide) (by decide)
  · exact not_mem_withDeferredUnique _ (by decide) (by decide)

/-- C6 witness: the stray path at a concrete job with no registered types. -/
theorem processJob_stray_to_dead_witness :
    (processJob jobTypesEmpty 0 job0 (ExecEvent.handlerDone none)).runErr =
      some (GoError.generic "stray job: no handler") ∧
    Effect.deadAdd ∈
      (processJob jobTypesEmpty 0 job0 (ExecEvent.handlerDone none)).effects ∧
    Effect.retryAdd ∉
      (processJob jobTypesEmpty 0 job0 (ExecEvent.handlerDone none)).effects :=
  ⟨(processJob_stray_to_dead jobTypesEmpty 0 job0
      (ExecEvent.handlerDone none) rfl).1,
    (processJob_stray_to_dead jobTypesEmpty 0 job0
      (ExecEvent.handlerDone none) rfl).2.2.1,
    (processJob_stray_to_dead jobTypesEmpty 0 job0
      (ExecEvent.handlerDone none) rfl).2.2.2.1⟩

/-- C7: when the job type has a positive starting deadline and the job has a
positive scheduledAt below it, processJob only removes the job from
in-progress (plus the deferred unique deletion): the job record is
unchanged, no handler starts and no retry or dead entry is produced. -/
theorem processJob_starting_deadline_drop (jobTypes : String → Option JobType)
    (now : Int) (job : Job) (ev : ExecEvent) (jt : JobType)
    (hjt : jobTypes job.Name = some jt)
    (h1 : 0 < jt.StartingDeadline) (h2 : 0 < job.ScheduledAt)
    (h3 : job.ScheduledAt < jt.StartingDeadline) :
    (processJob jobTypes now job ev).effects =
      withDeferredUnique job [Effect.removeFromInProgress] ∧
    (processJob jobTypes now job ev).runErr = none ∧
    (processJob jobTypes now job ev).job = job ∧
    Effect.startHandler ∉ (processJob jobTypes now job ev).effects ∧
    Effect.retryAdd ∉ (processJob jobTypes now job ev).effects ∧
    Effect.deadAdd ∉ (processJob jobTypes now job ev).effects := by
  have he : processJob jobTypes now job ev =
      { effects := withDeferredUnique job [Effect.removeFromInProgress]
        runErr := none
        job := job } := by
    unfold processJob
    rw [hjt]
    dsimp only
    rw [if_pos ⟨h1, h2, h3⟩]
  rw [he]
  refine ⟨rfl, rfl, rfl, ?_, ?_, ?_⟩
  · exact not_mem_withDeferredUnique job (by decide) (by decide)
  · exact not_mem_withDeferredUnique job (by decide) (by decide)
  · exact not_mem_withDeferredUnique job (by decide) (by decide)

/-- C7 witness: a job scheduled at 10 against a starting deadline of 50 is
dropped with only the in-progress removal. -/
theorem processJob_starting_deadline_drop_witness :
    (processJob jobTypesDeadline 0 jobSched
      (ExecEvent.handlerDone none)).effects =
      withDeferredUnique jobSched [Effect.removeFromInProgress] ∧
    (processJob jobTypesDeadline 0 jobSched
      (ExecEvent.handlerDone none)).runErr = none ∧
    Effect.startHandler ∉
      (processJob jobTypesDeadline 0 jobSched
        (ExecEvent.handlerDone none)).effects :=
  ⟨(processJob_starting_deadline_drop jobTypesDeadline 0 jobSched
      (ExecEvent.handlerDone none) jtDeadline rfl (by decide) (by decide)
      (by decide)).1,
    (processJob_starting_deadline_drop jobTypesDeadline 0 jobSched
      (ExecEvent.handlerDone none) jtDeadline rfl (by decide) (by decide)
      (by decide)).2.1,
    (processJob_starting_deadline_drop jobTypesDeadline 0 jobSched
      (ExecEvent.handlerDone none) jtDeadline rfl (by decide) (by decide)
      (by decide)).2.2.2.1⟩

/-- C8: in the worker loop, a transport error leaves the idle counter and
resets the timer to 10 ms; a nil fetch increments the consecutive-idle
counter and resets the timer to the backoff ladder [0, 10, 100, 1000, 5000]
entry at index min(counter, 4); a fetched job resets the counter to 0 and
the timer to 0. -/
theorem loop_timer_behavior (c : Nat) :
    loopStep c FetchOutcome.transportError = (c, 10) ∧
    loopStep c FetchOutcome.gotJob = (0, 0) ∧
    (loopStep c FetchOutcome.noJob).1 = c + 1 ∧
    (loopStep c FetchOutcome.noJob).2 =
      sleepBackoffsInMilliseconds.getD (min (c + 1) 4) 0 := by
  refine ⟨rfl, rfl, rfl, ?_⟩
  show sleepBackoffsInMilliseconds.getD
      (if sleepBackoffsInMilliseconds.length ≤ c + 1 then
        sleepBackoffsInMilliseconds.length - 1 else c + 1) 0 = _
  have hlen : sleepBackoffsInMilliseconds.length = 5 := rfl
  rw [hlen]
  by_cases h : 5 ≤ c + 1
  · rw [if_pos h]
    have hm : min (c + 1) 4 = 4 := by omega
    rw [hm]
  · rw [if_neg h]
    have hm : min (c + 1) 4 = c + 1 := by omega
    rw [hm]

/-- C9 helper: the handler check accepts exactly a func with one `error`
output whose inputs are `(*Job)` or `(*ctx, *Job)`. -/
theorem isValidHandlerType_iff (ctxName : String) (fn : FnType) :
    isValidHandlerType ctxName fn = true ↔
      fn.isFunc = true ∧ fn.outs = [GoType.errorInterface] ∧
        (fn.ins = [GoType.ptrJob] ∨
          fn.ins = [GoType.ptrTo ctxName, GoType.ptrJob]) := by
  rcases fn with ⟨isF, ins, outs⟩
  unfold isValidHandlerType
  cases isF <;>
    rcases outs with _ | ⟨o, _ | ⟨o2, outs⟩⟩ <;>
      rcases ins with _ | ⟨a, _ | ⟨b, _ | ⟨cc, ins⟩⟩⟩ <;>
        simp [List.getD] <;> tauto

/-- C9 helper: the middleware check accepts exactly a func with one `error`
output whose inputs are `(*Job, next)` or `(*ctx, *Job, next)`. -/
theorem isValidMiddlewareType_iff (ctxName : String) (fn : FnType) :
    isValidMiddlewareType ctxName fn = true ↔
      fn.isFunc = true ∧ fn.outs = [GoType.errorInterface] ∧
        (fn.ins = [GoType.ptrJob, GoType.nextMiddlewareFunc] ∨
          fn.ins = [GoType.ptrTo ctxName, GoType.ptrJob,
            GoType.nextMiddlewareFunc]) := by
  rcases fn with ⟨isF, ins, outs⟩
  unfold isValidMiddlewareType
  cases isF <;>
    rcases outs with _ | ⟨o, _ | ⟨o2, outs⟩⟩ <;>
      rcases ins with _ | ⟨a, _ | ⟨b, _ | ⟨cc, _ | ⟨dd, ins⟩⟩⟩⟩ <;>
        simp [List.getD] <;> tauto

/-- C9: at registration time a priority of 0 defaults to 1 and a maxFails
of 0 defaults to 4; a priority above 100000 panics, an invalid handler or
middleware signature panics, and a non-struct context kind panics at pool
creation. -/
theorem registration_defaults_and_panics :
    (∀ o : JobOptions, o.Priority = 0 →
      (applyDefaultsAndValidate o).map JobOptions.Priority = Except.ok 1) ∧
    (∀ o : JobOptions, o.MaxFails = 0 → o.Priority ≤ 100000 →
      (applyDefaultsAndValidate o).map JobOptions.MaxFails = Except.ok 4) ∧
    (∀ o : JobOptions, 100000 < o.Priority →
      applyDefaultsAndValidate o = Except.error
        "work: JobOptions.Priority must be between 1 and 100000") ∧
    (∀ (ctxName : String) (fn : FnType),
      ¬ (fn.isFunc = true ∧ fn.outs = [GoType.errorInterface] ∧
        (fn.ins = [GoType.ptrJob] ∨
          fn.ins = [GoType.ptrTo ctxName, GoType.ptrJob])) →
      validateHandlerType ctxName fn =
        Except.error "work: invalid handler signature") ∧
    (∀ (ctxName : String) (fn : FnType),
      ¬ (fn.isFunc = true ∧ fn.outs = [GoType.errorInterface] ∧
        (fn.ins = [GoType.ptrJob, GoType.nextMiddlewareFunc] ∨
          fn.ins = [GoType.ptrTo ctxName, GoType.ptrJob,
            GoType.nextMiddlewareFunc])) →
      validateMiddlewareType ctxName fn =
        Except.error "work: invalid middleware signature") ∧
    (∀ k : Kind, k ≠ Kind.Struct →
      validateContextType k =
        Except.error "work: Context needs to be a struct type") := by
  refine ⟨?_, ?_, ?_, ?_, ?_, ?_⟩
  · intro o h
    have hone : ¬ (100000 < (1 : Nat)) := by omega
    unfold applyDefaultsAndValidate
    rw [if_pos h]
    try dsimp only
    by_cases hm : o.MaxFails = 0
    · rw [if_pos hm]
      try dsimp only
      rw [if_neg hone]
      rfl
    · rw [if_neg hm]
      try dsimp only
      rw [if_neg hone]
      rfl
  · intro o h hp
    have hone : ¬ (100000 < (1 : Nat)) := by omega
    have hq : ¬ 100000 < o.Priority := by omega
    unfold applyDefaultsAndValidate
    by_cases h0 : o.Priority = 0
    · rw [if_pos h0]
      try dsimp only
      rw [if_pos h]
      try dsimp only
      rw [if_neg hone]
      rfl
    · rw [if_neg h0]
      try dsimp only
      rw [if_pos h]
      try dsimp only
      rw [if_neg hq]
      rfl
  · intro o h
    have h0 : ¬ o.Priority = 0 := by omega
    unfold applyDefaultsAndValidate
    rw [if_neg h0]
    try dsimp only
    by_cases hm : o.MaxFails = 0
    · rw [if_pos hm]
      try dsimp only
      rw [if_pos h]
    · rw [if_neg hm]
      try dsimp only
      rw [if_pos h]
  · intro ctxName fn hshape
    have hval : isValidHandlerType ctxName fn = false := by
      cases hv : isValidHandlerType ctxName fn
      · rfl
      · exact absurd ((isValidHandlerType_iff ctxName fn).mp hv) hshape
    unfold validateHandlerType
    rw [if_pos hval]
  · intro ctxName fn hshape
    have hval : isValidMiddlewareType ctxName fn = false := by
      cases hv : isValidMiddlewareType ctxName fn
      · rfl
      · exact absurd ((isValidMiddlewareType_iff ctxName fn).mp hv) hshape
    unfold validateMiddlewareType
    rw [if_pos hval]
  · intro k hk
    unfold validateContextType
    rw [if_pos hk]

/-- C9 witness: concrete zero options default to priority 1 and maxFails 4;
priority 100001 panics; a func with no outputs fails both signature checks;
a pointer context kind panics. -/
theorem registration_defaults_and_panics_witness :
    (applyDefaultsAndValidate zeroOptions).map JobOptions.Priority =
      Except.ok 1 ∧
    (applyDefaultsAndValidate zeroOptions).map JobOptions.MaxFails =
      Except.ok 4 ∧
    applyDefaultsAndValidate hugePriorityOptions = Except.error
      "work: JobOptions.Priority must be between 1 and 100000" ∧
    validateHandlerType "Context" badFn =
      Except.error "work: invalid handler signature" ∧
    validateMiddlewareType "Context" badFn =
      Except.error "work: invalid middleware signature" ∧
    validateContextType Kind.Ptr =
      Except.error "work: Context needs to be a struct type" :=
  ⟨registration_defaults_and_panics.1 zeroOptions rfl,
    registration_defaults_and_panics.2.1 zeroOptions rfl (by decide),
    registration_defaults_and_panics.2.2.1 hugePriorityOptions (by decide),
    registration_defaults_and_panics.2.2.2.1 "Context" badFn (by decide),
    registration_defaults_and_panics.2.2.2.2.1 "Context" badFn (by decide),
    registration_defaults_and_panics.2.2.2.2.2 Kind.Ptr (by decide)⟩

/-- C10: for a job with the Unique flag, the deferred deletion of the
unique marker is the last effect of processJob on every exit path: success,
handler failure, timeout, clear signal, starting-deadline drop and stray
job alike. -/
theorem processJob_deletes_unique (jobTypes : String → Option JobType)
    (now : Int) (job : Job) (ev : ExecEvent) (hu : job.Unique = true) :
    (processJob jobTypes now job ev).effects.getLast? =
      some Effect.deleteUnique := by
  unfold processJob
  cases hjt : jobTypes job.Name with
  | none =>
    dsimp only
    exact getLast_withDeferredUnique _ hu _
  | some jt =>
    dsimp only
    split
    · exact getLast_withDeferredUnique _ hu _
    · refine getLast_withDeferredUnique _ ?_ _
      rw [finishJob_job_unique, selectOutcome_job_unique]
      exact hu

/-- C10 witness: the unique marker deletion is last on a concrete clear
path. -/
theorem processJob_deletes_unique_witness :
    (processJob jobTypes0 0 jobUnique ExecEvent.clearSignal).effects.getLast? =
      some Effect.deleteUnique :=
  processJob_deletes_unique jobTypes0 0 jobUnique ExecEvent.clearSignal rfl

end Work
